import Mathlib

/-!
Shallow embedding of the METAR decoding core (src/main.rs) and verification
of its specification claims.

Modelling conventions:
* A tabular cell is `Option String`: `none` is the explicit null marker and
  `some s` is the cell's string value (polars' `str_value` of a non-null
  cell).  `str_value` of a null cell prints as "null", which `strValue`
  reproduces.
* Rust `f64` values are modelled as `ℚ`.  All conversion constants
  (1.8, 1.15078, 3.28084, 22.5) and the inputs the claims touch are exact
  decimals, and none of the rounded expressions lands close enough to a
  rounding boundary for double rounding to differ from exact rational
  arithmetic, so the rational model agrees with the f64 computation on the
  relevant domain.  Non-finite float literals ("inf", "NaN"), which Rust's
  parser would accept, are outside the rational model and treated as parse
  failures.
* Rust `i32` is modelled as `ℤ` with the i32 range check performed by the
  integer parser, exactly as `str::parse::<i32>` does.
* The `chrono` timestamp parser is an external crate; it is modelled as an
  arbitrary parameter `ts : String → Option String` (a partial parse
  function), since no claim depends on its grammar.
* A Rust panic (the out-of-bounds index into the 17-entry cardinal table)
  is modelled by an outer `Option` layer: `none` means the program aborts.
-/

namespace Metars

/-- A cell of the data frame: `none` is polars' null, `some s` a string value. -/
abbrev Cell := Option String

/-- A row of the data frame, in column order. -/
abbrev Row := List Cell

/-- `str_value` of a cell: polars prints a null cell as "null". -/
def strValue (c : Cell) : String := c.getD "null"

/-- Indexing `row[i]`; for rows of the expected 44-column width this agrees
with Rust's (panicking) indexing, which is only applied at indices ≤ 43. -/
def cell (row : Row) (i : Nat) : Cell := row.getD i none

/-- Numeric value of a digit string, most significant digit first. -/
def digitsToNat (l : List Char) : Nat :=
  l.foldl (fun acc c => acc * 10 + (c.toNat - '0'.toNat)) 0

/-- Optional exponent part of a float literal: models the `e`/`E` suffix of
Rust's `f64` grammar applied to an already-parsed mantissa. -/
def expPart (mant : ℚ) : List Char → Option ℚ
  | [] => some mant
  | c :: rest =>
    if c = 'e' ∨ c = 'E' then
      let signed : Bool × List Char :=
        match rest with
        | '+' :: r => (false, r)
        | '-' :: r => (true, r)
        | r => (false, r)
      let ds := signed.2.takeWhile Char.isDigit
      let r2 := signed.2.dropWhile Char.isDigit
      if ds.isEmpty || !r2.isEmpty then none
      else if signed.1 then some (mant / 10 ^ digitsToNat ds)
      else some (mant * 10 ^ digitsToNat ds)
    else none

/-- Unsigned part of Rust's `f64` grammar:
`Digits '.'? Digits? Exp?` or `'.' Digits Exp?`. -/
def parseUnsignedQ (l : List Char) : Option ℚ :=
  let d1 := l.takeWhile Char.isDigit
  let r1 := l.dropWhile Char.isDigit
  match r1 with
  | '.' :: r2 =>
    let d2 := r2.takeWhile Char.isDigit
    let r3 := r2.dropWhile Char.isDigit
    if d1.isEmpty && d2.isEmpty then none
    else expPart ((digitsToNat d1 : ℚ) + (digitsToNat d2 : ℚ) / 10 ^ d2.length) r3
  | _ => if d1.isEmpty then none else expPart (digitsToNat d1 : ℚ) r1

/-- Rust `str::parse::<f64>` on finite decimal literals, over the rational
model: optional sign, then the unsigned float grammar. -/
def parseF64 (s : String) : Option ℚ :=
  match s.toList with
  | '+' :: r => parseUnsignedQ r
  | '-' :: r => (parseUnsignedQ r).map (fun q => -q)
  | l => parseUnsignedQ l

/-- Rust `str::parse::<i32>`: optional sign, digits only, i32 range check. -/
def parseI32 (s : String) : Option ℤ :=
  let core : List Char → Option ℤ := fun l =>
    if l.isEmpty || !l.all Char.isDigit then none else some (digitsToNat l : ℤ)
  match s.toList with
  | '+' :: r => (core r).bind fun v => if v ≤ 2147483647 then some v else none
  | '-' :: r => (core r).bind fun v => if v ≤ 2147483648 then some (-v) else none
  | l => (core l).bind fun v => if v ≤ 2147483647 then some v else none

/-- `f64::round`: round half away from zero, as an integer. -/
def roundHalfAway (q : ℚ) : ℤ := if 0 ≤ q then ⌊q + 1 / 2⌋ else -⌊-q + 1 / 2⌋

/-- Temperature, in exactly one of the two units (`enum Temperature`). -/
inductive Temperature where
  | Celsius (v : Option ℚ)
  | Fahrenheit (v : Option ℚ)
deriving DecidableEq

/-- `Temperature::to_fahrenheit`: `val.mul_add(1.8, 32.0)`; fused multiply-add
is a single rounding in f64 and exact in ℚ. -/
def Temperature.to_fahrenheit : Temperature → Option ℚ
  | .Celsius (some val) => some (val * 1.8 + 32)
  | .Fahrenheit (some val) => some val
  | _ => none

/-- Wind direction (`enum WindDirection`). -/
inductive WindDirection where
  | Degrees (v : Option ℤ)
  | Variable (v : Option String)
deriving DecidableEq

/-- List indexing returning `none` out of bounds, modelling `directions[i]`
with the panic as `none`. -/
def nthStr : List String → Nat → Option String
  | [], _ => none
  | d :: _, 0 => some d
  | _ :: rest, n + 1 => nthStr rest n

/-- The 17-entry cardinal table of `to_cardinal_direction`. -/
def directions : List String :=
  ["N", "NNE", "NE", "ENE", "E", "ESE", "SE", "SSE", "S", "SSW", "SW", "WSW",
   "W", "WNW", "NW", "NNW", "N"]

/-- `WindDirection::to_cardinal_direction`.  The outer `Option` models the
panic: `none` is the out-of-bounds index `directions[index as usize]`
(Rust's `as usize` saturates a negative rounded value to 0, hence `Int.toNat`).
`some r` is a normal return of `r`. -/
def WindDirection.to_cardinal_direction : WindDirection → Option (Option String)
  | .Degrees (some val) =>
    if val = 0 then some none
    else
      match nthStr directions (roundHalfAway ((val : ℚ) / 22.5)).toNat with
      | some d => some (some d)
      | none => none
  | .Variable _ => some (some "Variable")
  | .Degrees none => some none

/-- Wind speed, in exactly one of the two units (`enum Wind`). -/
inductive Wind where
  | Knots (v : Option ℚ)
  | Mph (v : Option ℚ)
deriving DecidableEq

/-- `Wind::to_mph`: `((val * 1.15078) * 100.0).floor() / 100.0`. -/
def Wind.to_mph : Wind → Option ℚ
  | .Knots (some val) => some (((⌊val * 1.15078 * 100⌋ : ℤ) : ℚ) / 100)
  | .Mph (some val) => some val
  | _ => none

/-- One cloud layer (`struct Cloud`). -/
structure Cloud where
  sky_cover : Option String
  sky_cover_label : Option String
  cloud_base_ft_agl : Option ℤ
deriving DecidableEq

/-- The label computed by `Cloud::sky_cover_label` from the cover code. -/
def skyCoverLabelOf (c : Option String) : Option String :=
  match c with
  | some v =>
    if v = "CLR" ∨ v = "SKC" then some "Clear"
    else if v = "FEW" then some "Few"
    else if v = "SCT" then some "Scattered"
    else if v = "BKN" then some "Broken"
    else if v = "OVC" then some "Overcast"
    else if v = "OVX" then some "Obscured"
    else some ""
  | none => none

/-- Parsed base-altitude of a cloud column pair. -/
def cloudBaseOf (c : Cell) : Option ℤ :=
  match c with
  | none => none
  | some s => parseI32 s

/-- One iteration of the cloud loop: both components absent skips the layer
(`continue`), otherwise a `Cloud` is built and its label filled in. -/
def cloudFromPair (cov base : Cell) : Option Cloud :=
  if cov = none ∧ cloudBaseOf base = none then none
  else
    some { sky_cover := cov, sky_cover_label := skyCoverLabelOf cov,
           cloud_base_ft_agl := cloudBaseOf base }

/-- The cloud loop `for i in (22..=28).step_by(2)` over the four fixed
column pairs, in order. -/
def cloudsOf (row : Row) : List Cloud :=
  [22, 24, 26, 28].filterMap fun i => cloudFromPair (cell row i) (cell row (i + 1))

/-- Elevation, in exactly one of the two units (`enum Elevation`). -/
inductive Elevation where
  | Meters (v : Option ℚ)
  | Feet (v : Option ℚ)
deriving DecidableEq

/-- `Elevation::to_feet`: `(val * 3.28084).round()`. -/
def Elevation.to_feet : Elevation → Option ℚ
  | .Meters (some val) => some ((roundHalfAway (val * 3.28084) : ℤ) : ℚ)
  | .Feet (some val) => some val
  | _ => none

/-- The elevation-meters cell decode, with the 9999 sentinel check. -/
def elevMOfCell (c : Cell) : Elevation :=
  match c with
  | none => .Meters none
  | some s =>
    match parseF64 s with
    | some v => if v = 9999 then .Meters none else .Meters (some v)
    | none => .Meters none

/-- Boolean list-prefix test. -/
def isPrefixL : List Char → List Char → Bool
  | [], _ => true
  | _ :: _, [] => false
  | a :: p, b :: l => a == b && isPrefixL p l

/-- Boolean substring test: `pat` occurs somewhere in the list. -/
def containsL (pat : List Char) : List Char → Bool
  | [] => isPrefixL pat []
  | c :: rest => isPrefixL pat (c :: rest) || containsL pat rest

/-- The remarks delimiter token. -/
def rmk : List Char := ['R', 'M', 'K']

/-- Rust `str::split(' ')`: split at every space character, keeping empty
pieces, never returning an empty list of pieces. -/
def splitSp : List Char → List (List Char)
  | [] => [[]]
  | c :: rest =>
    if c = ' ' then [] :: splitSp rest
    else
      match splitSp rest with
      | [] => [[c]]
      | t :: ts => (c :: t) :: ts

/-- `position(|&x| x == "RMK")`: index of the first exact token match. -/
def findTok : List (List Char) → Option Nat
  | [] => none
  | t :: rest => if t = rmk then some 0 else (findTok rest).map (fun i => i + 1)

/-- `join(" ")`: rejoin pieces with single spaces. -/
def joinSp : List (List Char) → List Char
  | [] => []
  | [t] => t
  | t :: t2 :: rest => t ++ ' ' :: joinSp (t2 :: rest)

/-- The remarks extraction from the raw-text cell (`row[0]`): absent cell →
absent; no "RMK" substring → absent; otherwise split on spaces, find the
first "RMK" token and rejoin everything after it (token absent → absent). -/
def remarksOf (c : Cell) : Option String :=
  match c with
  | none => none
  | some s =>
    if containsL rmk s.toList then
      let parts := splitSp s.toList
      match findTok parts with
      | some i => some (joinSp (parts.drop (i + 1))).asString
      | none => none
    else none

/-- Rust `str::replace('+', "")`: removes every occurrence of `'+'`. -/
def removePlusAll (s : String) : String :=
  (s.toList.filter fun a => a != '+').asString

/-- The visibility cell decode: `replace('+', "")` then `parse::<f64>`. -/
def visCell (c : Cell) : Option ℚ :=
  match c with
  | none => none
  | some s => parseF64 (removePlusAll s)

/-- The wind-direction cell decode: null → absent, "VRB" → variable,
otherwise integer parse (failure → absent). -/
def windDirOfCell (c : Cell) : WindDirection :=
  match c with
  | none => .Degrees none
  | some s => if s = "VRB" then .Variable (some "VRB") else .Degrees (parseI32 s)

/-- Rust `str::starts_with('K')`. -/
def startsK (s : String) : Bool :=
  match s.toList with
  | 'K' :: _ => true
  | _ => false

/-- The acceptance filter of `parse_metars`: station id starts with "K". -/
def keepRow (row : Row) : Bool := startsK (strValue (cell row 1))

/-- One decoded observation record (`struct Metar`).  The timestamp is the
output of the abstract `chrono` parse parameter. -/
structure Metar where
  raw_text : String
  station_id : String
  observation_time : Option String
  lat : Option ℚ
  lon : Option ℚ
  temp_c : Temperature
  temp_f : Temperature
  dewpoint_c : Temperature
  dewpoint_f : Temperature
  wind_dir_degrees : WindDirection
  wind_dir_cardinal : Option String
  wind_speed_kt : Wind
  wind_speed_mph : Wind
  wind_gust_kt : Wind
  wind_gust_mph : Wind
  visibility_statute_mi : Option ℚ
  clouds : List Cloud
  altim_in_hg : Option ℚ
  wx_string : Option String
  flight_category : Option String
  report_type : Option String
  elevation_m : Elevation
  elevation_ft : Elevation
  remarks : Option String
deriving DecidableEq

/-- The loop body of `parse_metars` for one accepted row (lines 221-425),
with `ts` the external timestamp parser.  Returns `none` when the row's
decoding panics (the cardinal-table lookup is the only panic site at the
expected width). -/
def parseRowO (ts : String → Option String) (row : Row) : Option Metar :=
  let raw_text := strValue (cell row 0)
  let station_id := strValue (cell row 1)
  let observation_time : Option String :=
    match cell row 2 with
    | none => none
    | some s => ts s
  let lat := parseF64 (strValue (cell row 3))
  let lon := parseF64 (strValue (cell row 4))
  let temp_c : Temperature :=
    match cell row 5 with
    | none => .Celsius none
    | some s => .Celsius (parseF64 s)
  let temp_f := Temperature.Fahrenheit temp_c.to_fahrenheit
  let dewpoint_c : Temperature :=
    match cell row 6 with
    | none => .Celsius none
    | some s => .Celsius (parseF64 s)
  let dewpoint_f := Temperature.Fahrenheit dewpoint_c.to_fahrenheit
  let wind_dir_degrees := windDirOfCell (cell row 7)
  let wind_speed_kt : Wind :=
    match cell row 8 with
    | none => .Knots none
    | some s => .Knots (parseF64 s)
  let wind_speed_mph := Wind.Mph wind_speed_kt.to_mph
  let wind_gust_kt : Wind :=
    match cell row 9 with
    | none => .Knots none
    | some s => .Knots (parseF64 s)
  let wind_gust_mph := Wind.Mph wind_gust_kt.to_mph
  let visibility_statute_mi := visCell (cell row 10)
  let altim_in_hg : Option ℚ :=
    match cell row 11 with
    | none => none
    | some s => parseF64 s
  let clouds := cloudsOf row
  let wx_string := cell row 21
  let flight_category := cell row 30
  let report_type := cell row 42
  let elevation_m := elevMOfCell (cell row 43)
  let elevation_ft := Elevation.Feet elevation_m.to_feet
  let remarks := remarksOf (cell row 0)
  match wind_dir_degrees.to_cardinal_direction with
  | none => none
  | some wind_dir_cardinal =>
    some { raw_text := raw_text, station_id := station_id,
           observation_time := observation_time, lat := lat, lon := lon,
           temp_c := temp_c, temp_f := temp_f,
           dewpoint_c := dewpoint_c, dewpoint_f := dewpoint_f,
           wind_dir_degrees := wind_dir_degrees,
           wind_dir_cardinal := wind_dir_cardinal,
           wind_speed_kt := wind_speed_kt, wind_speed_mph := wind_speed_mph,
           wind_gust_kt := wind_gust_kt, wind_gust_mph := wind_gust_mph,
           visibility_statute_mi := visibility_statute_mi, clouds := clouds,
           altim_in_hg := altim_in_hg, wx_string := wx_string,
           flight_category := flight_category, report_type := report_type,
           elevation_m := elevation_m, elevation_ft := elevation_ft,
           remarks := remarks }

/-- `Metar::parse_metars`: iterate the rows in order, keep the rows passing
the station filter, decode each and push the record.  `none` models the
batch aborting with a panic inside some accepted row. -/
def parse_metars (ts : String → Option String) : List Row → Option (List Metar)
  | [] => some []
  | row :: rest =>
    if keepRow row then
      match parseRowO ts row, parse_metars ts rest with
      | some m, some l => some (m :: l)
      | _, _ => none
    else parse_metars ts rest

/-- Failure-propagating ordered map over rows (the specification-side shape
`parse_metars` is proved equal to: decode each kept row, in order). -/
def mapMO (f : Row → Option Metar) : List Row → Option (List Metar)
  | [] => some []
  | r :: rs =>
    match f r, mapMO f rs with
    | some m, some l => some (m :: l)
    | _, _ => none

/-- A timestamp parser that always fails; concrete instantiation for
witnesses (none of them carries a timestamp cell). -/
def tsNone : String → Option String := fun _ => none

/-- An all-null row of the expected 44-column width. -/
def blankRow : Row := List.replicate 44 (none : Cell)

/-- A width-44 row: accepted station, wind-direction cell "372". -/
def r372 : Row := (blankRow.set 1 (some "KSJC")).set 7 (some "372")

/-- A width-44 row: accepted station, wind-direction cell "999". -/
def r999 : Row := (blankRow.set 1 (some "KDEN")).set 7 (some "999")

/-- Helper: the rounded table index of heading 372 is 17 (just out of bounds). -/
lemma round372 : roundHalfAway (((372 : ℤ) : ℚ) / 22.5) = 17 := by
  rw [roundHalfAway, if_pos (by norm_num)]
  norm_num [Int.floor_eq_iff]

/-- Helper: the rounded table index of heading 999 is 44. -/
lemma round999 : roundHalfAway (((999 : ℤ) : ℚ) / 22.5) = 44 := by
  rw [roundHalfAway, if_pos (by norm_num)]
  norm_num [Int.floor_eq_iff]

/-- Helper: heading 372 drives the cardinal lookup out of bounds (panic). -/
lemma card372 : WindDirection.to_cardinal_direction (.Degrees (some 372)) = none := by
  simp only [WindDirection.to_cardinal_direction]
  rw [if_neg (by decide : ¬ (372 : ℤ) = 0), round372]
  decide

/-- Helper: heading 999 drives the cardinal lookup out of bounds (panic). -/
lemma card999 : WindDirection.to_cardinal_direction (.Degrees (some 999)) = none := by
  simp only [WindDirection.to_cardinal_direction]
  rw [if_neg (by decide : ¬ (999 : ℤ) = 0), round999]
  decide

/-- Helper: a row whose wind heading panics decodes to `none`. -/
lemma parseRowO_r999 : parseRowO tsNone r999 = none := by
  have hw : windDirOfCell (cell r999 7) = .Degrees (some 999) := by decide
  have hc : (windDirOfCell (cell r999 7)).to_cardinal_direction = none := by
    rw [hw, card999]
  simp only [parseRowO, hc]

/-- Helper: a row with wind heading 372 decodes to `none`. -/
lemma parseRowO_r372 : parseRowO tsNone r372 = none := by
  have hw : windDirOfCell (cell r372 7) = .Degrees (some 372) := by decide
  have hc : (windDirOfCell (cell r372 7)).to_cardinal_direction = none := by
    rw [hw, card372]
  simp only [parseRowO, hc]

/-- Claim C1 counterexample: a single accepted (station "KSJC") row of the
expected width whose wind-direction cell is "372" yields no record at all:
the batch aborts, so it is not the case that every row whose station id
starts with "K" produces exactly one record. -/
theorem claim1_cex :
    keepRow r372 = true ∧ r372.length = 44 ∧ parse_metars tsNone [r372] = none := by
  refine ⟨by decide, by decide, ?_⟩
  have hk : keepRow r372 = true := by decide
  simp [parse_metars, hk, parseRowO_r372]

/-- Claim C1 (amended): `parse_metars` equals the ordered, failure-propagating
decode (`mapMO`) of exactly the rows accepted by the station filter: one
record per accepted row in input-row order, nothing for filtered-out rows,
and the whole batch is `none` when an accepted row's decoding panics. -/
theorem claim1_filter_order (ts : String → Option String) (rows : List Row) :
    parse_metars ts rows = mapMO (parseRowO ts) (rows.filter keepRow) := by
  induction rows with
  | nil => rfl
  | cons r rs ih =>
    cases hk : keepRow r with
    | true => simp [parse_metars, List.filter_cons, hk, ih, mapMO]
    | false => simp [parse_metars, List.filter_cons, hk, ih]

/-- Claim C2: the code evaluated at the failing input.  The width-44 accepted
row whose wind-direction cell parses to heading 999 sends the cardinal table
index to 44, the lookup panics and the batch produces no record sequence,
contradicting the claim that decoding always returns a full record for each
accepted row of the expected width. -/
theorem claim2_panic_eval :
    r999.length = 44 ∧ keepRow r999 = true ∧
      windDirOfCell (cell r999 7) = WindDirection.Degrees (some 999) ∧
      WindDirection.to_cardinal_direction (WindDirection.Degrees (some 999)) = none ∧
      parse_metars tsNone [r999] = none := by
  refine ⟨by decide, by decide, by decide, card999, ?_⟩
  have hk : keepRow r999 = true := by decide
  simp [parse_metars, hk, parseRowO_r999]

/-- Claim C7: `to_mph` on a present knots payload is
`floor(k * 1.15078 * 100) / 100`; 10 kt is exactly 11.50 mph; an absent
payload stays absent. -/
theorem claim7_mph :
    (∀ k : ℚ, Wind.to_mph (Wind.Knots (some k)) =
      some (((⌊k * 1.15078 * 100⌋ : ℤ) : ℚ) / 100)) ∧
    Wind.to_mph (Wind.Knots none) = none ∧
    Wind.to_mph (Wind.Knots (some 10)) = some 11.50 := by
  refine ⟨fun k => rfl, rfl, ?_⟩
  simp only [Wind.to_mph]
  have hf : (⌊(10 : ℚ) * 1.15078 * 100⌋ : ℤ) = 1150 := by norm_num [Int.floor_eq_iff]
  rw [hf]
  norm_num

/-- Claim C8: `to_fahrenheit` on a present Celsius payload is `c * 1.8 + 32`
(0 °C is 32 °F, 100 °C is 212 °F); an absent payload stays absent. -/
theorem claim8_fahrenheit :
    (∀ c : ℚ, Temperature.to_fahrenheit (Temperature.Celsius (some c)) =
      some (c * 1.8 + 32)) ∧
    Temperature.to_fahrenheit (Temperature.Celsius (some 0)) = some 32 ∧
    Temperature.to_fahrenheit (Temperature.Celsius (some 100)) = some 212 ∧
    Temperature.to_fahrenheit (Temperature.Celsius none) = none := by
  refine ⟨fun c => rfl, ?_, ?_, rfl⟩
  · simp only [Temperature.to_fahrenheit]
    norm_num
  · simp only [Temperature.to_fahrenheit]
    norm_num

/-- Helper: for headings between 0 and 360 the rounded table index is
between 0 and 16. -/
lemma roundIdx_bounds (h : ℤ) (h0 : 0 ≤ h) (h1 : h ≤ 360) :
    0 ≤ roundHalfAway ((h : ℚ) / 22.5) ∧ roundHalfAway ((h : ℚ) / 22.5) ≤ 16 := by
  have hq : (0 : ℚ) ≤ (h : ℚ) / 22.5 := by
    apply div_nonneg
    · exact_mod_cast h0
    · norm_num
  rw [roundHalfAway, if_pos hq]
  constructor
  · exact Int.le_floor.mpr (by push_cast; linarith)
  · have h360 : (h : ℚ) ≤ 360 := by exact_mod_cast h1
    have hle : (h : ℚ) / 22.5 ≤ 16 := by
      rw [div_le_iff₀ (by norm_num : (0 : ℚ) < 22.5)]
      linarith
    have hlt : ⌊(h : ℚ) / 22.5 + 1 / 2⌋ < 17 := Int.floor_lt.mpr (by push_cast; linarith)
    omega

/-- Helper: in-bounds lookup into a string list always yields a value. -/
lemma nthStr_isSome : ∀ (l : List String) (n : Nat), n < l.length →
    ∃ d, nthStr l n = some d := by
  intro l
  induction l with
  | nil => intro n hn; simp at hn
  | cons d rest ih =>
    intro n hn
    cases n with
    | zero => exact ⟨d, rfl⟩
    | succ m => exact ih m (Nat.lt_of_succ_lt_succ (by simpa using hn))

/-- Helper: rounded table index of heading 45 is 2. -/
lemma round45deg : roundHalfAway (((45 : ℤ) : ℚ) / 22.5) = 2 := by
  rw [roundHalfAway, if_pos (by norm_num)]
  norm_num [Int.floor_eq_iff]

/-- Helper: rounded table index of heading 90 is 4. -/
lemma round90 : roundHalfAway (((90 : ℤ) : ℚ) / 22.5) = 4 := by
  rw [roundHalfAway, if_pos (by norm_num)]
  norm_num [Int.floor_eq_iff]

/-- Helper: rounded table index of heading 360 is 16. -/
lemma round360 : roundHalfAway (((360 : ℤ) : ℚ) / 22.5) = 16 := by
  rw [roundHalfAway, if_pos (by norm_num)]
  norm_num [Int.floor_eq_iff]

/-- Claim C4: the wind-direction decode order (absent cell, the literal
"VRB" token, then integer parse with failure collapsing to absent), and the
cardinal decode: heading 0 is absent, any other heading between 0 and 360
reads the table at index round(heading / 22.5), heading 90 is "E",
heading 360 is "N", and a variable direction is labelled "Variable". -/
theorem claim4_wind_direction :
    windDirOfCell none = WindDirection.Degrees none ∧
    windDirOfCell (some "VRB") = WindDirection.Variable (some "VRB") ∧
    (∀ s : String, ¬ s = "VRB" →
      windDirOfCell (some s) = WindDirection.Degrees (parseI32 s)) ∧
    WindDirection.to_cardinal_direction (WindDirection.Degrees (some 0)) = some none ∧
    (∀ h : ℤ, 0 ≤ h → h ≤ 360 → ¬ h = 0 →
      ∃ d, nthStr directions (roundHalfAway ((h : ℚ) / 22.5)).toNat = some d ∧
        WindDirection.to_cardinal_direction (WindDirection.Degrees (some h)) =
          some (some d)) ∧
    WindDirection.to_cardinal_direction (WindDirection.Degrees (some 90)) =
      some (some "E") ∧
    WindDirection.to_cardinal_direction (WindDirection.Degrees (some 360)) =
      some (some "N") ∧
    (∀ v, WindDirection.to_cardinal_direction (WindDirection.Variable v) =
      some (some "Variable")) := by
  refine ⟨rfl, by decide, ?_, by decide, ?_, ?_, ?_, fun v => rfl⟩
  · intro s hs
    simp only [windDirOfCell, if_neg hs]
  · intro h h0 h1 hz
    obtain ⟨hb0, hb16⟩ := roundIdx_bounds h h0 h1
    have hlt : (roundHalfAway ((h : ℚ) / 22.5)).toNat < directions.length := by
      have hlen : directions.length = 17 := by decide
      omega
    obtain ⟨d, hd⟩ := nthStr_isSome directions _ hlt
    refine ⟨d, hd, ?_⟩
    simp only [WindDirection.to_cardinal_direction, if_neg hz, hd]
  · simp only [WindDirection.to_cardinal_direction]
    rw [if_neg (by decide : ¬ (90 : ℤ) = 0), round90]
    decide
  · simp only [WindDirection.to_cardinal_direction]
    rw [if_neg (by decide : ¬ (360 : ℤ) = 0), round360]
    decide

/-- Claim C4 witness: the general heading rule applied at heading 45
yields the concrete cardinal "NE". -/
theorem claim4_witness :
    WindDirection.to_cardinal_direction (WindDirection.Degrees (some 45)) =
      some (some "NE") := by
  obtain ⟨d, hd, hc⟩ :=
    claim4_wind_direction.2.2.2.2.1 45 (by decide) (by decide) (by decide)
  have h2 : nthStr directions (roundHalfAway (((45 : ℤ) : ℚ) / 22.5)).toNat =
      some "NE" := by
    rw [round45deg]
    decide
  have hde : d = "NE" := Option.some.inj (hd.symm.trans h2)
  rw [hde] at hc
  exact hc

/-- Claim C10: for present headings between 0 and 360 the rounded table
index lies in 0..16, inside the 17-entry table, so the out-of-bounds
(panic) branch of `to_cardinal_direction` is unreachable. -/
theorem claim10_index_bounds (h : ℤ) (h0 : 0 ≤ h) (h1 : h ≤ 360) :
    0 ≤ roundHalfAway ((h : ℚ) / 22.5) ∧ roundHalfAway ((h : ℚ) / 22.5) ≤ 16 ∧
      ¬ WindDirection.to_cardinal_direction (WindDirection.Degrees (some h)) = none := by
  obtain ⟨hb0, hb16⟩ := roundIdx_bounds h h0 h1
  refine ⟨hb0, hb16, ?_⟩
  by_cases hz : h = 0
  · subst hz
    simp [WindDirection.to_cardinal_direction]
  · simp only [WindDirection.to_cardinal_direction, if_neg hz]
    have hlt : (roundHalfAway ((h : ℚ) / 22.5)).toNat < directions.length := by
      have hlen : directions.length = 17 := by decide
      omega
    obtain ⟨d, hd⟩ := nthStr_isSome directions _ hlt
    rw [hd]
    simp

/-- Claim C10 witness: the in-bounds property instantiated at heading 90. -/
theorem claim10_witness :
    ¬ WindDirection.to_cardinal_direction (WindDirection.Degrees (some 90)) = none :=
  (claim10_index_bounds 90 (by decide) (by decide)).2.2

/-- Helper: the head piece of a space-split is a prefix of the split list. -/
lemma splitSp_head_prefix :
    ∀ (l : List Char) (t : List Char) (rest : List (List Char)),
      splitSp l = t :: rest → isPrefixL t l = true := by
  intro l
  induction l with
  | nil =>
    intro t rest h
    simp only [splitSp] at h
    injection h with h1 h2
    subst h1
    rfl
  | cons c tail ih =>
    intro t rest h
    by_cases hc : c = ' '
    · simp only [splitSp, if_pos hc] at h
      injection h with h1 h2
      subst h1
      rfl
    · cases hs : splitSp tail with
      | nil =>
        simp only [splitSp, if_neg hc, hs] at h
        injection h with h1 h2
        subst h1
        simp [isPrefixL]
      | cons t' ts =>
        simp only [splitSp, if_neg hc, hs] at h
        injection h with h1 h2
        subst h1
        simp [isPrefixL, ih t' ts hs]

/-- Helper: if "RMK" is one of the space-split pieces, it occurs as a
substring of the original character list. -/
lemma mem_splitSp_contains :
    ∀ l : List Char, rmk ∈ splitSp l → containsL rmk l = true := by
  intro l
  induction l with
  | nil =>
    intro hm
    simp only [splitSp] at hm
    simp [rmk] at hm
  | cons c tail ih =>
    intro hm
    by_cases hc : c = ' '
    · simp only [splitSp, if_pos hc] at hm
      rcases List.mem_cons.mp hm with h1 | h2
      · exact absurd h1 (by decide)
      · simp [containsL, ih h2]
    · cases hs : splitSp tail with
      | nil =>
        simp only [splitSp, if_neg hc, hs] at hm
        rcases List.mem_cons.mp hm with h1 | h2
        · have hlen := congrArg List.length h1
          simp [rmk] at hlen
        · simp at h2
      | cons t' ts =>
        simp only [splitSp, if_neg hc, hs] at hm
        rcases List.mem_cons.mp hm with h1 | h2
        · have hpre : isPrefixL t' tail = true := splitSp_head_prefix tail t' ts hs
          have hfst : isPrefixL rmk (c :: tail) = true := by
            rw [h1]
            simp [isPrefixL, hpre]
          simp [containsL, hfst]
        · have hmem : rmk ∈ splitSp tail := by
            rw [hs]
            exact List.mem_cons_of_mem _ h2
          simp [containsL, ih hmem]

/-- Helper: a found token index means "RMK" is one of the pieces. -/
lemma findTok_mem : ∀ (ps : List (List Char)) (i : Nat),
    findTok ps = some i → rmk ∈ ps := by
  intro ps
  induction ps with
  | nil => intro i h; simp [findTok] at h
  | cons t rest ih =>
    intro i h
    by_cases ht : t = rmk
    · rw [ht]
      exact List.mem_cons_self rmk rest
    · simp only [findTok, if_neg ht] at h
      cases hf : findTok rest with
      | none => rw [hf] at h; simp at h
      | some j => exact List.mem_cons_of_mem _ (ih j hf)

/-- Claim C3: remarks extraction.  When no "RMK" token exists among the
space-split pieces the field is absent; when the first "RMK" token is at
index i the field is the pieces after it rejoined with single spaces; the
two concrete examples from the spec, including the trailing-"RMK" empty
string. -/
theorem claim3_remarks :
    (∀ s : String, findTok (splitSp s.toList) = none → remarksOf (some s) = none) ∧
    (∀ (s : String) (i : Nat), findTok (splitSp s.toList) = some i →
      remarksOf (some s) =
        some (joinSp ((splitSp s.toList).drop (i + 1))).asString) ∧
    remarksOf (some "METAR KSJC 010000Z RMK AO2 SLP123") = some "AO2 SLP123" ∧
    remarksOf (some "METAR KSJC 010000Z RMK") = some "" ∧
    remarksOf none = none := by
  refine ⟨?_, ?_, by decide, by decide, rfl⟩
  · intro s h
    by_cases hc : containsL rmk s.toList = true
    · simp only [remarksOf, if_pos hc, h]
    · simp only [remarksOf, if_neg hc]
  · intro s i h
    have hcon : containsL rmk s.toList = true :=
      mem_splitSp_contains _ (findTok_mem _ i h)
    simp only [remarksOf, if_pos hcon, h]

/-- Claim C3 witness: the token rule applied to a report whose "RMK" token
sits at index 1. -/
theorem claim3_witness : remarksOf (some "KSEA RMK AO1") = some "AO1" := by
  have h := claim3_remarks.2.1 "KSEA RMK AO1" 1 (by decide)
  exact h.trans (by decide)

/-- The all-absent record produced from an all-null accepted row. -/
def blankMetar : Metar where
  raw_text := "null"
  station_id := "null"
  observation_time := none
  lat := none
  lon := none
  temp_c := .Celsius none
  temp_f := .Fahrenheit none
  dewpoint_c := .Celsius none
  dewpoint_f := .Fahrenheit none
  wind_dir_degrees := .Degrees none
  wind_dir_cardinal := none
  wind_speed_kt := .Knots none
  wind_speed_mph := .Mph none
  wind_gust_kt := .Knots none
  wind_gust_mph := .Mph none
  visibility_statute_mi := none
  clouds := []
  altim_in_hg := none
  wx_string := none
  flight_category := none
  report_type := none
  elevation_m := .Meters none
  elevation_ft := .Feet none
  remarks := none

/-- A width-44 row whose only present cell is cloud cover "BKN" (column 22). -/
def rowC5 : Row := blankRow.set 22 (some "BKN")

/-- The record decoded from `rowC5`. -/
def mC5 : Metar :=
  { blankMetar with
    clouds := [{ sky_cover := some "BKN", sky_cover_label := some "Broken",
                 cloud_base_ft_agl := none }] }

/-- Claim C5: the cloud cover-code labelling (the seven named codes, the
empty label for unknown codes, absent label for absent code), the skip rule
for a fully-absent pair, the built layer for any other pair, the BKN-only
example, and the builder storing exactly the four-pair extraction. -/
theorem claim5_clouds :
    skyCoverLabelOf none = none ∧
    skyCoverLabelOf (some "CLR") = some "Clear" ∧
    skyCoverLabelOf (some "SKC") = some "Clear" ∧
    skyCoverLabelOf (some "FEW") = some "Few" ∧
    skyCoverLabelOf (some "SCT") = some "Scattered" ∧
    skyCoverLabelOf (some "BKN") = some "Broken" ∧
    skyCoverLabelOf (some "OVC") = some "Overcast" ∧
    skyCoverLabelOf (some "OVX") = some "Obscured" ∧
    (∀ s : String, ¬ s = "CLR" → ¬ s = "SKC" → ¬ s = "FEW" → ¬ s = "SCT" →
      ¬ s = "BKN" → ¬ s = "OVC" → ¬ s = "OVX" →
      skyCoverLabelOf (some s) = some "") ∧
    (∀ base : Cell, cloudBaseOf base = none → cloudFromPair none base = none) ∧
    (∀ cov base : Cell, ¬ (cov = none ∧ cloudBaseOf base = none) →
      cloudFromPair cov base =
        some { sky_cover := cov, sky_cover_label := skyCoverLabelOf cov,
               cloud_base_ft_agl := cloudBaseOf base }) ∧
    cloudFromPair (some "BKN") none =
      some { sky_cover := some "BKN", sky_cover_label := some "Broken",
             cloud_base_ft_agl := none } ∧
    (∀ (ts : String → Option String) (row : Row) (m : Metar),
      parseRowO ts row = some m → m.clouds = cloudsOf row) := by
  refine ⟨rfl, by decide, by decide, by decide, by decide, by decide, by decide,
    by decide, ?_, ?_, ?_, by decide, ?_⟩
  · intro s h1 h2 h3 h4 h5 h6 h7
    simp only [skyCoverLabelOf]
    rw [if_neg (not_or.mpr ⟨h1, h2⟩), if_neg h3, if_neg h4, if_neg h5,
      if_neg h6, if_neg h7]
  · intro base h
    simp only [cloudFromPair]
    rw [if_pos ⟨trivial, h⟩]
  · intro cov base h
    simp only [cloudFromPair]
    rw [if_neg h]
  · intro ts row m h
    simp only [parseRowO] at h
    split at h
    · exact absurd h (by simp)
    · replace h := Option.some.inj h
      subst h
      rfl

/-- Claim C5 witness: the builder rule at the BKN-only row, and the
empty-label rule at an unknown code. -/
theorem claim5_witness :
    mC5.clouds = cloudsOf rowC5 ∧ skyCoverLabelOf (some "XYZ") = some "" :=
  ⟨claim5_clouds.2.2.2.2.2.2.2.2.2.2.2.2 tsNone rowC5 mC5 (by decide),
   claim5_clouds.2.2.2.2.2.2.2.2.1 "XYZ" (by decide) (by decide) (by decide)
     (by decide) (by decide) (by decide) (by decide)⟩

/-- Helper: the elevation sentinel cell parses to 9999. -/
lemma parse9999 : parseF64 "9999" = some 9999 := by decide

/-- Helper: the cell "100" parses to 100. -/
lemma parse100 : parseF64 "100" = some 100 := by decide

/-- Claim C6: a meters cell parsing to exactly 9999 is the "not reported"
sentinel and yields absent elevation in both units (in particular the cell
"9999" does not convert to 32808 ft); any other parsed value m converts to
round(m * 3.28084) feet; absent or unparseable cells stay absent. -/
theorem claim6_elevation :
    (∀ s : String, parseF64 s = some 9999 →
      elevMOfCell (some s) = Elevation.Meters none ∧
        (elevMOfCell (some s)).to_feet = none) ∧
    elevMOfCell (some "9999") = Elevation.Meters none ∧
    ¬ (elevMOfCell (some "9999")).to_feet = some 32808 ∧
    (∀ (s : String) (v : ℚ), parseF64 s = some v → ¬ v = 9999 →
      (elevMOfCell (some s)).to_feet =
        some ((roundHalfAway (v * 3.28084) : ℤ) : ℚ)) ∧
    elevMOfCell none = Elevation.Meters none ∧
    (∀ s : String, parseF64 s = none → elevMOfCell (some s) = Elevation.Meters none) ∧
    Elevation.to_feet (Elevation.Meters none) = none := by
  have h9999 : elevMOfCell (some "9999") = Elevation.Meters none := by
    simp only [elevMOfCell, parse9999]
    rw [if_pos trivial]
  refine ⟨?_, h9999, ?_, ?_, rfl, ?_, rfl⟩
  · intro s h
    have he : elevMOfCell (some s) = Elevation.Meters none := by
      simp only [elevMOfCell, h]
      rw [if_pos trivial]
    exact ⟨he, by rw [he]; rfl⟩
  · rw [h9999]
    simp [Elevation.to_feet]
  · intro s v h hv
    simp only [elevMOfCell, h]
    rw [if_neg hv]
    rfl
  · intro s h
    simp only [elevMOfCell, h]

/-- Claim C6 witness: the conversion rule at a 100 m elevation cell gives
328 ft. -/
theorem claim6_witness : (elevMOfCell (some "100")).to_feet = some 328 := by
  have h := claim6_elevation.2.2.2.1 "100" 100 parse100 (by norm_num)
  rw [h]
  have hr : roundHalfAway ((100 : ℚ) * 3.28084) = 328 := by
    rw [roundHalfAway, if_pos (by norm_num)]
    norm_num [Int.floor_eq_iff]
  rw [hr]
  norm_num

/-- The visibility rule as the claim words it (spec-side comparison
definition): strip a literal '+' suffix character only, then parse. -/
def stripPlusSuffixSpec (s : String) : String :=
  match s.toList.getLast? with
  | some '+' => s.toList.dropLast.asString
  | _ => s

/-- Visibility decode following the claim's suffix-only stripping. -/
def visSpecCell (c : Cell) : Option ℚ :=
  match c with
  | none => none
  | some s => parseF64 (stripPlusSuffixSpec s)

/-- Claim C9 counterexample: on the cell "1+0" (no '+' suffix) the code
parses 10 — it removes the interior '+' — while the claimed
suffix-stripping rule leaves "1+0" unchanged and the parse fails. -/
theorem claim9_cex :
    visCell (some "1+0") = some 10 ∧ stripPlusSuffixSpec "1+0" = "1+0" ∧
      visSpecCell (some "1+0") = none := by
  refine ⟨by decide, by decide, by decide⟩

/-- Claim C9 (amended): the visibility decode removes every literal '+'
character (not only a suffix) and then parses; the builder stores exactly
this value; absent cell stays absent; a genuine '+' suffix as in "10+" is
still removed before the parse. -/
theorem claim9_visibility :
    (∀ (ts : String → Option String) (row : Row) (m : Metar),
      parseRowO ts row = some m →
        m.visibility_statute_mi = visCell (cell row 10)) ∧
    (∀ s : String, visCell (some s) =
      parseF64 ((s.toList.filter fun a => a != '+').asString)) ∧
    visCell none = none ∧
    visCell (some "10+") = some 10 := by
  refine ⟨?_, fun s => rfl, rfl, by decide⟩
  intro ts row m h
  simp only [parseRowO] at h
  split at h
  · exact absurd h (by simp)
  · replace h := Option.some.inj h
    subst h
    rfl

/-- A width-44 row whose only present cell is visibility "10+" (column 10). -/
def rowVis : Row := blankRow.set 10 (some "10+")

/-- The record decoded from `rowVis`. -/
def mVis : Metar := { blankMetar with visibility_statute_mi := some 10 }

/-- Claim C9 witness: the builder rule applied at the concrete row whose
visibility cell is "10+". -/
theorem claim9_witness : mVis.visibility_statute_mi = visCell (cell rowVis 10) :=
  claim9_visibility.1 tsNone rowVis mVis (by decide)

end Metars
